import Mathlib

/-!
Verification of the `pubplots` module (`src/pubplots/pubplots.py`).

The module has three pieces:
  * `scale`, which multiplies a scalar, a tuple, or several positional
    numeric arguments by a scaling factor (the factor defaults to an
    ambient context variable `_scaling_ctx`, default `1.0`);
  * `get_rc_params`, which maps a destination name to a dictionary of
    matplotlib rcParams together with a scaler closure bound to that
    destination's fixed factor (`300/96` for `"figma"`, `1.0` otherwise);
  * `destination`, a context manager that sets the ambient scaling factor
    and the process-wide rcParams for the duration of a block and restores
    both on every exit path (`try/finally` plus `mpl.rc_context`).

All numeric constants occurring in the module (`300/96`, `6 * 300/96`,
`150 / (300/96)`, `2 * 300/96`, ...) are dyadic rationals, exactly
representable as Python floats, so the Python float arithmetic here is
exact and we model numbers by `ℚ` without loss.
-/

namespace Pubplots

/-- An argument to (or result of) `scale`: Python's
`int | float | tuple[int | float, ...]`. -/
inductive Value where
  | scalar (x : ℚ)
  | tup (xs : List ℚ)
  deriving DecidableEq, Repr

/-- One matplotlib rcParams value, as they occur in `get_rc_params`. -/
inductive RcValue where
  | str (s : String)
  | strList (l : List String)
  | num (q : ℚ)
  | bool (b : Bool)
  deriving DecidableEq, Repr

/-- The `scale` function.  `ctx` is the current value of the module-level
context variable `_scaling_ctx` (read only when `scaling_factor` is `None`),
`values` the positional arguments.  Mirrors the source:

    if scaling_factor is None: scaling_factor = _scaling_ctx.get()
    if len(values) == 1:
        values = values[0]
        if isinstance(values, tuple):
            return tuple(v * scaling_factor for v in values)
        else:
            return values * scaling_factor
    else:
        return tuple(v * scaling_factor for v in values)

In the `len(values) != 1` branch a tuple element would hit Python's
`tuple * float`, a `TypeError`; that raise is modelled by `none`. -/
def scale (ctx : ℚ) (values : List Value) (scaling_factor : Option ℚ) :
    Option Value :=
  let f := scaling_factor.getD ctx
  match values with
  | [v] =>
    match v with
    | Value.tup xs => some (Value.tup (xs.map (fun x => x * f)))
    | Value.scalar x => some (Value.scalar (x * f))
  | vs =>
    (vs.mapM (fun v =>
      match v with
      | Value.scalar x => some (x * f)
      | Value.tup _ => none)).map Value.tup

/-- The scaling factor chosen at the top of `get_rc_params`:
`300 / 96` for `"figma"`, `1.0` for every other destination string. -/
def destScaling (destination : String) : ℚ :=
  if destination = "figma" then 300 / 96 else 1

/-- The `rc_params` dictionary built by `get_rc_params destination`,
as an association list in source order. -/
def rc_params (destination : String) : List (String × RcValue) :=
  let scaling := destScaling destination
  [("font.family", RcValue.str "sans-serif"),
   ("font.sans-serif", RcValue.strList ["Arial"]),
   ("font.size", RcValue.num (6 * scaling)),
   ("axes.titlesize", RcValue.num (6 * scaling)),
   ("axes.labelsize", RcValue.num (6 * scaling)),
   ("xtick.labelsize", RcValue.num (5 * scaling)),
   ("ytick.labelsize", RcValue.num (5 * scaling)),
   ("legend.fontsize", RcValue.num (6 * scaling)),
   ("figure.titlesize", RcValue.num (7 * scaling)),
   ("figure.labelsize", RcValue.num (7 * scaling)),
   ("figure.dpi", RcValue.num (150 / scaling)),
   ("figure.autolayout", RcValue.bool true),
   ("savefig.dpi", RcValue.num 300),
   ("savefig.format", RcValue.str "svg"),
   ("svg.fonttype", RcValue.str "none"),
   ("pdf.fonttype", RcValue.num 42)]

/-- `get_rc_params destination` returns the rcParams dictionary and the
closure `_scale(*values) = scale(*values, scaling_factor=scaling)`.
The closure still takes the ambient context value `ctx` as input (it is an
input of `scale`) but passes an explicit `scaling_factor`, the fixed
factor of this destination. -/
def get_rc_params (destination : String) :
    List (String × RcValue) × (ℚ → List Value → Option Value) :=
  (rc_params destination,
   fun ctx values => scale ctx values (some (destScaling destination)))

/-- The mutable state the `destination` context manager touches: the
context variable `_scaling_ctx` and the process-wide `mpl.rcParams`
store (the keys relevant to this module). -/
structure St where
  ambient : ℚ
  rc : List (String × RcValue)
  deriving DecidableEq, Repr

/-- `dict` assignment of one key: replace the value if the key is present,
append otherwise. -/
def rcSet (rc : List (String × RcValue)) (k : String) (v : RcValue) :
    List (String × RcValue) :=
  if rc.any (fun p => p.1 = k) then
    rc.map (fun p => if p.1 = k then (k, v) else p)
  else rc ++ [(k, v)]

/-- `dict.update`: assign every key of `params` in order. -/
def rcUpdate (rc params : List (String × RcValue)) :
    List (String × RcValue) :=
  params.foldl (fun acc p => rcSet acc p.1 p.2) rc

/-- Calling `scale x` with no explicit `scaling_factor` in state `s`:
the factor is read from the ambient context variable. -/
def scaleAmbient (s : St) (x : ℚ) : Option Value :=
  scale s.ambient [Value.scalar x] none

/-- The `destination` context manager, with the caller's block given as an
explicit state transformer `body` that may finish normally (`Except.ok`)
or raise (`Except.error`).  Mirrors the source:

    params, scaler = get_rc_params(destination)
    token = _scaling_ctx.set(scaler(1.0))
    try:
        with mpl.rc_context(params):
            yield
    finally:
        _scaling_ctx.reset(token)

`mpl.rc_context` snapshots the whole fixed-key `rcParams` store on entry,
updates it with `params`, and in its own `finally` writes the snapshot
back; `ContextVar.reset(token)` restores the value the variable had when
`token` was produced by `set`.  Both `finally` blocks run on the normal
and on the exceptional exit path, so the result of `body` is passed
through unchanged while the state restoration is unconditional. -/
def withDestination {α : Type} (dest : String)
    (body : St → St × Except Unit α) (s : St) : St × Except Unit α :=
  let params := (get_rc_params dest).1
  let scaler := (get_rc_params dest).2
  -- scaler(1.0) is a scalar; the fallback branch is unreachable.
  let amb := match scaler s.ambient [Value.scalar 1] with
    | some (Value.scalar q) => q
    | _ => s.ambient
  let token := s.ambient
  let s1 : St := { s with ambient := amb }
  let orig := s1.rc
  let s2 : St := { s1 with rc := rcUpdate s1.rc params }
  let res := body s2
  let s4 : St := { res.1 with rc := orig }
  let s5 : St := { s4 with ambient := token }
  (s5, res.2)

/-- The nested-scope program of the specification: enter `"figma"`,
inside it enter `"default"`, observe `scale(1.0)` inside the inner scope
and again after the inner scope exits; the caller then observes
`scale(1.0)` once more after the outer scope exits. -/
def nestedRun (s : St) : St × Except Unit (Option Value × Option Value) :=
  withDestination "figma" (fun s1 =>
    let inner :=
      withDestination "default"
        (fun s2 => (s2, Except.ok (scaleAmbient s2 1))) s1
    match inner.2 with
    | Except.ok v => (inner.1, Except.ok (v, scaleAmbient inner.1 1))
    | Except.error e => (inner.1, Except.error e)) s

/-- C1: for every destination name, `get_rc_params` uses scale factor
`300/96` exactly when the name is `"figma"` and `1.0` exactly for every
other string; being a total function on all strings, it rejects no name. -/
theorem get_rc_params_factor (d : String) (h : d ≠ "figma") :
    destScaling "figma" = 300 / 96 ∧ destScaling d = 1 := by
  constructor
  · simp [destScaling]
  · simp [destScaling, h]

/-- Witness for C1 at the concrete destination `"adobe"`. -/
theorem get_rc_params_factor_witness :
    "adobe" ≠ "figma" ∧
      (destScaling "figma" = 300 / 96 ∧ destScaling "adobe" = 1) :=
  ⟨by decide, get_rc_params_factor "adobe" (by decide)⟩

/-- C2: in the `"figma"` parameter mapping, `font.size = 6 * 300/96`,
`figure.dpi = 150 / (300/96)` and `savefig.dpi = 300`; moreover
`savefig.dpi = 300` for every destination name. -/
theorem rc_params_figma_values (d : String) :
    ((get_rc_params "figma").1.lookup "font.size"
        = some (RcValue.num (6 * (300 / 96))) ∧
      (get_rc_params "figma").1.lookup "figure.dpi"
        = some (RcValue.num (150 / (300 / 96)))) ∧
    (get_rc_params d).1.lookup "savefig.dpi" = some (RcValue.num 300) :=
  ⟨⟨rfl, rfl⟩, rfl⟩

/-- C3: `scale(x, scaling_factor=f)` on a scalar returns the scalar
`x * f`, whatever the ambient context value is. -/
theorem scale_scalar (ctx x f : ℚ) :
    scale ctx [Value.scalar x] (some f) = some (Value.scalar (x * f)) :=
  rfl

/-- C4: `scale(S, scaling_factor=f)` on a tuple returns a tuple of the
same length whose i-th element is the i-th element of `S` times `f`. -/
theorem scale_tuple (ctx f : ℚ) (xs : List ℚ) :
    scale ctx [Value.tup xs] (some f)
        = some (Value.tup (xs.map (fun x => x * f))) ∧
      (xs.map (fun x => x * f)).length = xs.length ∧
      ∀ i : Fin xs.length,
        (xs.map (fun x => x * f)).get (i.cast (by simp)) = xs.get i * f := by
  refine ⟨rfl, by simp, ?_⟩
  intro i
  simp

/-- C5: `scale(a, b, c, scaling_factor=f)` with three positional
arguments equals `scale((a, b, c), scaling_factor=f)` on one tuple. -/
theorem scale_multiarg_eq_tuple (ctx a b c f : ℚ) :
    scale ctx [Value.scalar a, Value.scalar b, Value.scalar c] (some f)
      = scale ctx [Value.tup [a, b, c]] (some f) :=
  rfl

/-- C6: inside the `"figma"` scope, `scale(2.0)` with no explicit factor
returns `2.0 * 300/96 = 6.25`; after the scope exits, `scale(2.0)`
returns `2.0` again (the ambient factor is back at the default `1.0`). -/
theorem destination_roundtrip (s : St) (h : s.ambient = 1) :
    (withDestination "figma"
        (fun s1 => (s1, Except.ok (scaleAmbient s1 2))) s).2
      = Except.ok (some (Value.scalar (2 * (300 / 96)))) ∧
    (2 : ℚ) * (300 / 96) = 25 / 4 ∧
    scaleAmbient (withDestination "figma"
        (fun s1 => (s1, Except.ok (scaleAmbient s1 2))) s).1 2
      = some (Value.scalar 2) := by
  refine ⟨?_, by norm_num, ?_⟩
  · simp [withDestination, scaleAmbient, scale, get_rc_params, destScaling]
  · simp [withDestination, scaleAmbient, scale, get_rc_params, destScaling, h]

/-- Witness for C6 at the concrete initial state `⟨1, []⟩`. -/
theorem destination_roundtrip_witness :
    (St.mk 1 []).ambient = 1 ∧
      ((withDestination "figma"
          (fun s1 => (s1, Except.ok (scaleAmbient s1 2))) (St.mk 1 [])).2
        = Except.ok (some (Value.scalar (2 * (300 / 96)))) ∧
      (2 : ℚ) * (300 / 96) = 25 / 4 ∧
      scaleAmbient (withDestination "figma"
          (fun s1 => (s1, Except.ok (scaleAmbient s1 2))) (St.mk 1 [])).1 2
        = some (Value.scalar 2)) :=
  ⟨rfl, destination_roundtrip (St.mk 1 []) rfl⟩

/-- C7: nested scopes restore like a stack: with `"figma"` entered and
`"default"` entered inside it, `scale(1.0)` is `1.0` in the inner scope,
`300/96` after the inner scope exits, and `1.0` after the outer scope
exits. -/
theorem destination_nesting (s : St) (h : s.ambient = 1) :
    (nestedRun s).2
      = Except.ok (some (Value.scalar 1), some (Value.scalar (300 / 96))) ∧
    scaleAmbient (nestedRun s).1 1 = some (Value.scalar 1) := by
  constructor
  · simp [nestedRun, withDestination, scaleAmbient, scale, get_rc_params,
      destScaling]
  · simp [nestedRun, withDestination, scaleAmbient, scale, get_rc_params,
      destScaling, h]

/-- Witness for C7 at the concrete initial state `⟨1, []⟩`. -/
theorem destination_nesting_witness :
    (St.mk 1 []).ambient = 1 ∧
      ((nestedRun (St.mk 1 [])).2
        = Except.ok (some (Value.scalar 1), some (Value.scalar (300 / 96))) ∧
      scaleAmbient (nestedRun (St.mk 1 [])).1 1 = some (Value.scalar 1)) :=
  ⟨rfl, destination_nesting (St.mk 1 []) rfl⟩

/-- C8: if the caller's block raises inside the scoped context, the
exception propagates and both the ambient scale factor and the rcParams
store are still restored to their pre-entry values. -/
theorem destination_exception_safety {α : Type} (dest : String) (s : St)
    (body : St → St × Except Unit α) (e : Unit)
    (h : (withDestination dest body s).2 = Except.error e) :
    (withDestination dest body s).2 = Except.error e ∧
      (withDestination dest body s).1.ambient = s.ambient ∧
      (withDestination dest body s).1.rc = s.rc :=
  ⟨h, rfl, rfl⟩

/-- Witness for C8: a block that raises immediately inside `"figma"`. -/
theorem destination_exception_safety_witness :
    (withDestination "figma"
        (fun s1 => (s1, (Except.error () : Except Unit Unit)))
        (St.mk 1 [])).2 = Except.error () ∧
      ((withDestination "figma"
          (fun s1 => (s1, (Except.error () : Except Unit Unit)))
          (St.mk 1 [])).2 = Except.error () ∧
        (withDestination "figma"
            (fun s1 => (s1, (Except.error () : Except Unit Unit)))
            (St.mk 1 [])).1.ambient = (St.mk 1 []).ambient ∧
        (withDestination "figma"
            (fun s1 => (s1, (Except.error () : Except Unit Unit)))
            (St.mk 1 [])).1.rc = (St.mk 1 []).rc) :=
  ⟨rfl, destination_exception_safety "figma" (St.mk 1 [])
    (fun s1 => (s1, Except.error ())) () rfl⟩

/-- C9: the scaler returned by `get_rc_params d` ignores the ambient
context value entirely and multiplies its inputs by `d`'s fixed factor. -/
theorem scaler_ignores_ambient (d : String) (ctx ctx' x : ℚ)
    (vs : List Value) :
    (get_rc_params d).2 ctx vs = (get_rc_params d).2 ctx' vs ∧
      (get_rc_params d).2 ctx [Value.scalar x]
        = some (Value.scalar (x * destScaling d)) :=
  ⟨rfl, rfl⟩

/-- C10: calling `scale` with zero positional arguments does not fail:
for every factor `f`, it returns the empty tuple. -/
theorem scale_noargs (ctx f : ℚ) :
    scale ctx [] (some f) = some (Value.tup []) :=
  rfl

end Pubplots
